import Mathlib

/-!
A shallow embedding of the conversation engine of the sherpa-backend
repository (src/services/chatbot.py and the websocket gateway in
src/app.py), together with theorems checking the natural-language
specification's claims against it.

The Model Client (`self.model`, a `ChatAnthropic` instance) is embedded as
an oracle `Model : List Msg → Option String`: `some reply` models
`model.invoke(messages)` returning an `AIMessage` with text `reply`, and
`none` models the call raising an exception.  A `Chatbot` whose credential
was missing at construction time has `model = none` at the `Option Model`
level.
-/

namespace Sherpa

/-- A langchain message as the chatbot stores it.  The source's defensive
code also tolerates a bare Python list standing where a message should be
(`isinstance(last_message, list)` branches in `_should_recommend_community`
and `get_response`); `wrapped` models that shape, one level deep, with
`BaseMsg` the ordinary message variants. -/
inductive BaseMsg where
  | human (content : String)
  | ai (content : String)
  | system (content : String)
deriving DecidableEq, Repr

inductive Msg where
  | base (m : BaseMsg)
  | wrapped (ms : List BaseMsg)
deriving DecidableEq, Repr

/-- Shorthand for an ordinary `HumanMessage`. -/
def Msg.human (c : String) : Msg := .base (.human c)

/-- Shorthand for an ordinary `AIMessage`. -/
def Msg.ai (c : String) : Msg := .base (.ai c)

/-- Shorthand for an ordinary `SystemMessage`. -/
def Msg.system (c : String) : Msg := .base (.system c)

/-- The `.content` attribute of a message (`BaseMsg` always has one). -/
def BaseMsg.content : BaseMsg → String
  | .human c => c
  | .ai c => c
  | .system c => c

/-- The community record `GRAND_VILLA_INFO` (chatbot.py lines 25-38). -/
structure CommunityInfo where
  name : String
  description : String
  amenities : List String
  care_types : List String
  locations : List String
deriving DecidableEq, Repr

def GRAND_VILLA_INFO : CommunityInfo :=
  { name := "Grand Villa"
    description := "Grand Villa is a premier senior living community offering independent living, assisted living, and memory care services. We provide a luxurious lifestyle with resort-style amenities, chef-prepared meals, and engaging activities."
    amenities :=
      [ "Resort-style swimming pool"
      , "Fitness center"
      , "Beauty salon and barbershop"
      , "Restaurant-style dining"
      , "Engaging activities and events"
      , "24/7 care and support" ]
    care_types := ["Independent Living", "Assisted Living", "Memory Care"]
    locations := ["Florida", "Georgia", "Alabama"] }

/-- The `ChatState` TypedDict (chatbot.py lines 18-22).  The `context` dict is
read and written only at the key `"first_interaction"` (default `True`), so it
is embedded as the boolean field `context_first_interaction`. -/
structure ChatState where
  messages : List Msg
  next : Option String
  context_first_interaction : Bool
  community_info : Option CommunityInfo
deriving DecidableEq, Repr

/-- The initial `self.state` built in `Chatbot.__init__` (lines 95-100). -/
def initialState : ChatState :=
  { messages := []
    next := none
    context_first_interaction := true
    community_info := none }

/-- The Model Client oracle: `some reply` = `model.invoke` returns an
assistant message with text `reply`; `none` = the call raises. -/
def Model : Type := List Msg → Option String

/-- The long instruction string `system_prompt` (chatbot.py lines 41-56). -/
def system_prompt : String :=
  "You're a friendly guide helping people find living arrangements. Keep responses brief and conversational.\n\nInitial Message: \"I'd be happy to get you the information you need, but before I do, do you mind if I ask a few quick questions? That way, I can really understand what's important and make sure I'm helping in the best way possible.\"\n\nFollow-up Questions (one at a time):\n1. Type of care needed (independent living, assisted living, memory care)\n2. Location preferences\n3. Budget considerations\n4. Specific requirements\n\nGuidelines:\n- Always start with the initial message\n- Ask one question at a time\n- Be warm and friendly\n- Keep responses under 2-3 sentences\n- Acknowledge responses before asking next question"

/-- Fixed reply used when no API key was provided (lines 132, 156, 194). -/
def unavailableMessage : String :=
  "I'm sorry, but I'm currently unable to process your request. API Key is not provided."

/-- Fixed apology appended by `_chat` when `model.invoke` raises (line 186). -/
def chatApology : String :=
  "I apologize, but I encountered an error. Could you please try rephrasing your message?"

/-- Fixed apology returned by the outer handler of `get_response` (line 215). -/
def outerApology : String :=
  "I apologize, but I encountered an error. Could you please try again?"

/-- Fixed reply when the final message has no recognised shape (line 212). -/
def processApology : String :=
  "I apologize, but I couldn't process your message properly."

/-- Python's substring test `needle in haystack`, on exploded characters:
`listIsPrefixOf n h` is `n` being an initial segment of `h`. -/
def listIsPrefixOf : List Char → List Char → Bool
  | [], _ => true
  | _ :: _, [] => false
  | a :: n, b :: h => a == b && listIsPrefixOf n h

/-- `needle` occurs as a contiguous run inside `haystack`. -/
def listContainsSub (needle : List Char) : List Char → Bool
  | [] => needle.isEmpty
  | c :: rest => listIsPrefixOf needle (c :: rest) || listContainsSub needle rest

/-- Python's `needle in haystack` for strings. -/
def strContains (haystack needle : String) : Bool :=
  listContainsSub needle.toList haystack.toList

/-- Python's `str.lower` as `_should_recommend_community` applies it
(line 120).  Every string the router compares is ASCII, where Python's
`lower` coincides with mapping `Char.toLower` over the characters. -/
def pyLower (s : String) : String := ⟨s.data.map Char.toLower⟩

/-- The fixed keyword set of `_should_recommend_community` (line 122). -/
def community_keywords : List String :=
  ["community", "communities", "place", "facility", "location", "where"]

/-- The content extraction of `_should_recommend_community` (lines 111-117):
the `.content` of a `HumanMessage` or `AIMessage`; for a non-empty bare list,
the `.content` of its head when that head is a `HumanMessage` or `AIMessage`;
otherwise the initial `""`. -/
def extractMessageContent : Msg → String
  | .base (.human c) => c
  | .base (.ai c) => c
  | .wrapped (BaseMsg.human c :: _) => c
  | .wrapped (BaseMsg.ai c :: _) => c
  | _ => ""

/-- `Chatbot._should_recommend_community` (chatbot.py lines 102-126), the
conditional-edge router of the graph.  Returns `"recommend"` or
`"continue_chat"`. -/
def shouldRecommendCommunity (state : ChatState) : String :=
  match state.messages.getLast? with
  | none => "continue_chat"
  | some last_message =>
    let message_content := extractMessageContent last_message
    if message_content ≠ "" then
      let lowered := pyLower message_content
      if community_keywords.any (fun keyword => strContains lowered keyword) then
        "recommend"
      else
        "continue_chat"
    else
      "continue_chat"

/-- The fixed recommendation text `community_message` built by
`_recommend_community` (chatbot.py lines 139-144): an f-string whose
continuation lines carry the source file's eight-space indentation. -/
def community_message : String :=
  "I'd like to tell you about Grand Villa, a premier senior living community. "
    ++ GRAND_VILLA_INFO.description
    ++ "\n\n        Key amenities include:\n        "
    ++ String.intercalate ", " GRAND_VILLA_INFO.amenities
    ++ "\n\n        Would you like to know more about Grand Villa or would you prefer to explore other options?"

/-- `Chatbot._recommend_community` (chatbot.py lines 128-151).  With no model
it appends the unavailable-service reply and clears `community_info`; with a
model it appends `community_message` and stores `GRAND_VILLA_INFO`. -/
def recommendCommunity (model : Option Model) (state : ChatState) : ChatState :=
  match model with
  | none =>
    { messages := state.messages ++ [Msg.ai unavailableMessage]
      next := none
      context_first_interaction := state.context_first_interaction
      community_info := none }
  | some _ =>
    { messages := state.messages ++ [Msg.ai community_message]
      next := none
      context_first_interaction := state.context_first_interaction
      community_info := some GRAND_VILLA_INFO }

/-- `Chatbot._chat` (chatbot.py lines 153-190).  The second component counts
the `self.model.invoke(messages)` calls performed (line 174): `0` on the
missing-key branch, `1` otherwise — the `try` block always reaches the
invocation, and a raising invocation (oracle `none`) still counts as one.
When `context["first_interaction"]` is truthy the system prompt is prepended
and the flag is cleared before the invocation, so the flag stays cleared even
when the invocation raises. -/
def chat (model : Option Model) (state : ChatState) : ChatState × Nat :=
  match model with
  | none =>
    ({ messages := state.messages ++ [Msg.ai unavailableMessage]
       next := none
       context_first_interaction := state.context_first_interaction
       community_info := state.community_info }, 0)
  | some invoke =>
    let prepared :=
      if state.context_first_interaction then
        (Msg.system system_prompt :: state.messages, false)
      else
        (state.messages, state.context_first_interaction)
    let messages := prepared.1
    let context_first := prepared.2
    match invoke messages with
    | some response =>
      ({ messages := messages ++ [Msg.ai response]
         next := none
         context_first_interaction := context_first
         community_info := state.community_info }, 1)
    | none =>
      ({ messages := messages ++ [Msg.ai chatApology]
         next := none
         context_first_interaction := context_first
         community_info := state.community_info }, 1)

/-- `self.app.invoke` for the compiled graph of `Chatbot.__init__` (chatbot.py
lines 71-92): entry point `"chat"`; after `chat`, the conditional edge
evaluates `_should_recommend_community` on `chat`'s output and either runs
`recommend_community` then ends, or ends.  The second component counts model
invocations. -/
def appInvoke (model : Option Model) (state : ChatState) : ChatState × Nat :=
  let afterChat := chat model state
  if shouldRecommendCommunity afterChat.1 = "recommend" then
    (recommendCommunity model afterChat.1, afterChat.2)
  else
    afterChat

/-- `Chatbot.get_response` (chatbot.py lines 192-215).  Returns the reply
text, the updated `self.state`, and the number of model invocations.  With no
model it short-circuits before touching the state (lines 193-194).  Otherwise
it appends the user turn, runs the graph, and extracts the last message's
text with the same defensive shape analysis as the source: `HumanMessage` or
`AIMessage` content directly; a non-empty bare list yields its head's
`.content` (an `AttributeError` on a nested list is caught by the outer
handler, line 213); anything else yields the fixed `processApology`; an empty
transcript would raise `IndexError` at line 206, caught by the same outer
handler. -/
def getResponse (model : Option Model) (state : ChatState) (user_message : String) :
    String × ChatState × Nat :=
  match model with
  | none => (unavailableMessage, state, 0)
  | some _ =>
    let state := { state with messages := state.messages ++ [Msg.human user_message] }
    let result := appInvoke model state
    let state := result.1
    let n := result.2
    match state.messages.getLast? with
    | some (.base (.human c)) => (c, state, n)
    | some (.base (.ai c)) => (c, state, n)
    | some (.wrapped (m :: _)) => (m.content, state, n)
    | some (.base (.system _)) => (processApology, state, n)
    | some (.wrapped []) => (processApology, state, n)
    | none => (outerApology, state, n)

/-- One engine turn as the session gateway drives it: the state after
`get_response`. -/
def stepState (model : Option Model) (state : ChatState) (user_message : String) : ChatState :=
  (getResponse model state user_message).2.1

/-- The state reached from a fresh session after a sequence of user inputs. -/
def runSession (model : Option Model) (inputs : List String) : ChatState :=
  inputs.foldl (stepState model) initialState

/-- An inbound application message on the websocket, after JSON decoding
(app.py lines 199-215): either tagged `"type": "reset"` or carrying a
`"content"` field. -/
inductive InboundMsg where
  | reset
  | content (text : String)

/-- The gateway's acknowledgement text for a reset (app.py line 203). -/
def resetAck : String := "Chat history has been reset."

/-- The gateway's generic error reply (app.py line 230). -/
def resetErrorReply : String := "Sorry, there was an error processing your message."

/-- The inner message handling of `websocket_endpoint` (app.py lines
198-230), restricted to the chatbot interaction (database writes are logged
and swallowed and do not affect the reply or the state).  On a reset-tagged
message the gateway calls `chatbot.reset_history()` (line 202); the `Chatbot`
class defines no method of that name, so the call raises `AttributeError`,
which the handler at line 228 catches, sending the generic error reply and
leaving the chatbot state untouched.  On a content message it returns
`get_response`'s reply and the updated state. -/
def handleMessage (model : Option Model) (state : ChatState) :
    InboundMsg → String × ChatState
  | .reset => (resetErrorReply, state)
  | .content text =>
    let r := getResponse model state text
    (r.1, r.2.1)

/-- Is this transcript element the synthetic system instruction turn shape
(a `SystemMessage`)? -/
def isSystemTurn : Msg → Bool
  | .base (.system _) => true
  | _ => false

/-- Is this transcript element an assistant (`AIMessage`) turn? -/
def isAssistantTurn : Msg → Bool
  | .base (.ai _) => true
  | _ => false

/-- Number of system turns in a transcript. -/
def systemTurnCount (ms : List Msg) : Nat := ms.countP isSystemTurn

/-- Number of assistant turns in a transcript. -/
def assistantTurnCount (ms : List Msg) : Nat := ms.countP isAssistantTurn

/-- The message list `_chat` passes to `model.invoke` (line 174) when
`get_response` is called on `state` with `user_message`: the user turn is
appended (line 200), and on a first interaction the system prompt is
prepended (lines 166-171) before the invocation. -/
def chatModelInput (state : ChatState) (user_message : String) : List Msg :=
  if state.context_first_interaction then
    Msg.system system_prompt :: (state.messages ++ [Msg.human user_message])
  else
    state.messages ++ [Msg.human user_message]

/-- The transcript/flag invariant maintained by the engine: before the first
processed turn the transcript holds no system turn and the flag is still
true; afterwards the flag is false and the transcript is the system prompt
followed by system-turn-free messages. -/
def SystemPromptInv (s : ChatState) : Prop :=
  (s.context_first_interaction = true ∧ systemTurnCount s.messages = 0) ∨
  (s.context_first_interaction = false ∧
    ∃ rest, s.messages = Msg.system system_prompt :: rest ∧ systemTurnCount rest = 0)

/-! ## Helper lemmas -/

/-- The router only inspects the last transcript element: appending `m` to
any state routes like the singleton state holding `m`. -/
theorem shouldRecommendCommunity_concat (ms : List Msg) (m : Msg) (nx : Option String)
    (b : Bool) (ci : Option CommunityInfo) :
    shouldRecommendCommunity ⟨ms ++ [m], nx, b, ci⟩ =
      shouldRecommendCommunity ⟨[m], none, true, none⟩ := by
  unfold shouldRecommendCommunity
  simp [List.getLast?_concat]

/-- With a configured model, `_chat` performs exactly one invocation. -/
theorem chat_some_invokes_once (m : Model) (s : ChatState) :
    (chat (some m) s).2 = 1 := by
  simp only [chat]
  rcases h : m (if s.context_first_interaction = true then
      (Msg.system system_prompt :: s.messages, false)
    else (s.messages, s.context_first_interaction)).1 with _ | r <;> simp [h]

/-- The graph run performs exactly the invocations of its `chat` node. -/
theorem appInvoke_snd (model : Option Model) (s : ChatState) :
    (appInvoke model s).2 = (chat model s).2 := by
  unfold appInvoke
  by_cases h : shouldRecommendCommunity (chat model s).1 = "recommend" <;> simp [h]

/-- With a configured model, `get_response` reports the graph's invocation
count. -/
theorem getResponse_some_snd (m : Model) (s : ChatState) (msg : String) :
    (getResponse (some m) s msg).2.2 =
      (appInvoke (some m) { s with messages := s.messages ++ [Msg.human msg] }).2 := by
  simp only [getResponse]
  rcases h : (appInvoke (some m) { s with messages := s.messages ++ [Msg.human msg] }).1.messages.getLast? with _ | mm
  · simp [h]
  · rcases mm with ⟨c⟩ | ms
    · rcases c with c | c | c <;> simp [h]
    · rcases ms with _ | ⟨hd, tl⟩ <;> simp [h]

/-- When the model invocation raises (oracle `none`), `_chat` on the
user-appended state yields the prepared transcript plus the fixed apology,
with the first-interaction flag cleared. -/
theorem chat_some_fail (m : Model) (s : ChatState) (msg : String)
    (hfail : m (chatModelInput s msg) = none) :
    chat (some m) { s with messages := s.messages ++ [Msg.human msg] } =
      ({ messages := chatModelInput s msg ++ [Msg.ai chatApology], next := none,
         context_first_interaction := false, community_info := s.community_info }, 1) := by
  simp only [chat, chatModelInput] at *
  by_cases hfi : s.context_first_interaction = true <;>
    simp [hfi] at hfail ⊢ <;> rw [hfail]

/-- The apology text contains no routing keyword, so a transcript ending in
the apology routes to `continue_chat`. -/
theorem shouldRecommendCommunity_ai_apology (ms : List Msg) (nx : Option String)
    (b : Bool) (ci : Option CommunityInfo) :
    shouldRecommendCommunity ⟨ms ++ [Msg.ai chatApology], nx, b, ci⟩ = "continue_chat" := by
  rw [shouldRecommendCommunity_concat]
  decide

theorem getResponse_model_failure (s : ChatState) (msg : String) (m : Model)
    (hfail : m (chatModelInput s msg) = none) :
    (getResponse (some m) s msg).1 = chatApology ∧
    (getResponse (some m) s msg).2.1.messages = chatModelInput s msg ++ [Msg.ai chatApology] ∧
    assistantTurnCount (getResponse (some m) s msg).2.1.messages =
      assistantTurnCount s.messages + 1 := by
  have h1 : appInvoke (some m) { s with messages := s.messages ++ [Msg.human msg] } =
      ({ messages := chatModelInput s msg ++ [Msg.ai chatApology], next := none,
         context_first_interaction := false, community_info := s.community_info }, 1) := by
    unfold appInvoke
    rw [chat_some_fail m s msg hfail]
    simp [shouldRecommendCommunity_ai_apology]
  have h2 : getResponse (some m) s msg =
      (chatApology,
        ⟨chatModelInput s msg ++ [Msg.ai chatApology], none, false, s.community_info⟩, 1) := by
    simp only [getResponse]
    rw [h1]
    simp [List.getLast?_concat, Msg.ai]
  refine ⟨by rw [h2], by rw [h2], ?_⟩
  rw [h2]
  unfold assistantTurnCount chatModelInput
  by_cases hfi : s.context_first_interaction = true <;>
    simp [hfi, List.countP_append, List.countP_cons, isAssistantTurn, Msg.ai, Msg.human, Msg.system]

theorem isSystemTurn_human (c : String) : isSystemTurn (Msg.human c) = false := rfl

theorem isSystemTurn_ai (c : String) : isSystemTurn (Msg.ai c) = false := rfl

theorem isSystemTurn_system (c : String) : isSystemTurn (Msg.system c) = true := rfl

theorem isAssistantTurn_human (c : String) : isAssistantTurn (Msg.human c) = false := rfl

theorem isAssistantTurn_ai (c : String) : isAssistantTurn (Msg.ai c) = true := rfl

theorem isAssistantTurn_system (c : String) : isAssistantTurn (Msg.system c) = false := rfl

/-- With a configured model, `_chat` on the user-appended state appends one
assistant turn to the prepared transcript and clears the flag, whatever the
oracle does. -/
theorem chat_some_shape (m : Model) (s : ChatState) (msg : String) :
    ∃ reply : String,
      chat (some m) { s with messages := s.messages ++ [Msg.human msg] } =
        ({ messages := chatModelInput s msg ++ [Msg.ai reply], next := none,
           context_first_interaction := false, community_info := s.community_info }, 1) := by
  rcases h : m (chatModelInput s msg) with _ | r
  · exact ⟨chatApology, chat_some_fail m s msg h⟩
  · refine ⟨r, ?_⟩
    simp only [chat, chatModelInput] at h ⊢
    by_cases hfi : s.context_first_interaction = true <;> simp [hfi] at h ⊢ <;> rw [h]

/-- The state `get_response` stores is the state the graph run produced. -/
theorem getResponse_some_fst_state (m : Model) (s : ChatState) (msg : String) :
    (getResponse (some m) s msg).2.1 =
      (appInvoke (some m) { s with messages := s.messages ++ [Msg.human msg] }).1 := by
  simp only [getResponse]
  rcases h : (appInvoke (some m) { s with messages := s.messages ++ [Msg.human msg] }).1.messages.getLast? with _ | mm
  · simp [h]
  · rcases mm with ⟨c⟩ | ms
    · rcases c with c | c | c <;> simp [h]
    · rcases ms with _ | ⟨hd, tl⟩ <;> simp [h]

/-- With a configured model, one `get_response` call leaves the prepared
transcript plus the new assistant turn, optionally followed by the
recommendation turn, and the first-interaction flag false. -/
theorem getResponse_some_state_shape (m : Model) (s : ChatState) (msg : String) :
    ∃ (reply : String) (extra : List Msg),
      (extra = [] ∨ extra = [Msg.ai community_message]) ∧
      (getResponse (some m) s msg).2.1.messages =
        chatModelInput s msg ++ [Msg.ai reply] ++ extra ∧
      (getResponse (some m) s msg).2.1.context_first_interaction = false := by
  obtain ⟨reply, hchat⟩ := chat_some_shape m s msg
  rw [getResponse_some_fst_state]
  unfold appInvoke
  rw [hchat]
  by_cases hrec : shouldRecommendCommunity
      ⟨chatModelInput s msg ++ [Msg.ai reply], none, false, s.community_info⟩ = "recommend"
  · refine ⟨reply, [Msg.ai community_message], Or.inr rfl, ?_, ?_⟩ <;>
      simp [hrec, recommendCommunity]
  · refine ⟨reply, [], Or.inl rfl, ?_, ?_⟩ <;> simp [hrec]

/-- The first-interaction flag never returns to true within a session. -/
theorem stepState_flag_monotone (model : Option Model) (s : ChatState) (msg : String)
    (h : s.context_first_interaction = false) :
    (stepState model s msg).context_first_interaction = false := by
  cases model with
  | none => exact h
  | some m =>
    obtain ⟨reply, extra, hextra, hmsgs, hflag⟩ := getResponse_some_state_shape m s msg
    exact hflag

/-- One engine turn preserves the system-prompt invariant. -/
theorem stepState_preserves_SystemPromptInv (model : Option Model) (s : ChatState)
    (msg : String) (h : SystemPromptInv s) : SystemPromptInv (stepState model s msg) := by
  cases model with
  | none => exact h
  | some m =>
    obtain ⟨reply, extra, hextra, hmsgs, hflag⟩ := getResponse_some_state_shape m s msg
    right
    refine ⟨hflag, ?_⟩
    have hextra0 : systemTurnCount extra = 0 := by
      rcases hextra with h' | h' <;> subst h' <;> rfl
    rcases h with ⟨hfi, hcnt⟩ | ⟨hfi, rest, hrest, hcnt⟩
    · refine ⟨s.messages ++ [Msg.human msg] ++ [Msg.ai reply] ++ extra, ?_, ?_⟩
      · show (getResponse (some m) s msg).2.1.messages = _
        rw [hmsgs]
        unfold chatModelInput
        simp [hfi, List.append_assoc]
      · simp only [systemTurnCount] at hcnt hextra0 ⊢
        simp [List.countP_append, List.countP_cons, hcnt, hextra0,
          isSystemTurn_human, isSystemTurn_ai]
    · refine ⟨rest ++ [Msg.human msg] ++ [Msg.ai reply] ++ extra, ?_, ?_⟩
      · show (getResponse (some m) s msg).2.1.messages = _
        rw [hmsgs]
        unfold chatModelInput
        simp [hfi, hrest, List.append_assoc]
      · simp only [systemTurnCount] at hcnt hextra0 ⊢
        simp [List.countP_append, List.countP_cons, hcnt, hextra0,
          isSystemTurn_human, isSystemTurn_ai]

/-- Every state reachable from a fresh session satisfies the invariant. -/
theorem runSession_SystemPromptInv (model : Option Model) (inputs : List String) :
    SystemPromptInv (runSession model inputs) := by
  suffices h : ∀ (l : List String) (s : ChatState), SystemPromptInv s →
      SystemPromptInv (l.foldl (stepState model) s) by
    exact h inputs initialState (Or.inl ⟨rfl, rfl⟩)
  intro l
  induction l with
  | nil => intro s hs; exact hs
  | cons a t ih =>
    intro s hs
    exact ih _ (stepState_preserves_SystemPromptInv model s a hs)

/-- What the invariant says about a single state: at most one system turn,
the flag mirrors its absence, and a system turn can only stand first. -/
theorem SystemPromptInv_consequences (s : ChatState) (h : SystemPromptInv s) :
    systemTurnCount s.messages ≤ 1 ∧
    (s.context_first_interaction = true ↔ systemTurnCount s.messages = 0) ∧
    ∀ pre m post, s.messages = pre ++ m :: post → isSystemTurn m = true → pre = [] := by
  rcases h with ⟨hfi, hcnt⟩ | ⟨hfi, rest, hrest, hcnt⟩
  · refine ⟨by simp [hcnt], ⟨fun _ => hcnt, fun _ => hfi⟩, ?_⟩
    intro pre m post hsplit hsys
    exfalso
    have hmem : m ∈ s.messages := by rw [hsplit]; simp
    exact absurd hsys (by simpa using List.countP_eq_zero.mp hcnt m hmem)
  · have hone : systemTurnCount s.messages = 1 := by
      rw [hrest]
      simp only [systemTurnCount] at hcnt ⊢
      simp [List.countP_cons, isSystemTurn_system, hcnt]
    refine ⟨by rw [hone], by rw [hfi, hone]; simp, ?_⟩
    intro pre m post hsplit hsys
    cases pre with
    | nil => rfl
    | cons p pre' =>
      exfalso
      rw [hrest] at hsplit
      have hp : rest = pre' ++ m :: post := (List.cons_eq_cons.mp hsplit.symm).2.symm
      have hmem : m ∈ rest := by rw [hp]; simp
      exact absurd hsys (by simpa using List.countP_eq_zero.mp hcnt m hmem)

/-! ## Claim theorems -/

/-- C1: the claim fails on the code.  On a fresh session the input
"What locations do you have?" does make `_should_recommend_community` return
`"recommend"` on the state whose last element is the newly appended user
turn; but the compiled graph's entry point is the `chat` node, so
`get_response` with a configured model invokes the Model Client exactly once
on every turn — including this one — and when the model's own reply carries
no keyword (here "I hear you") the reply returned is the model's text, not
the fixed template, and `community_info` stays empty. -/
theorem recommend_keywords_route_but_model_invoked :
    (∀ s : ChatState,
      shouldRecommendCommunity
        ⟨s.messages ++ [Msg.human "What locations do you have?"], s.next,
          s.context_first_interaction, s.community_info⟩ = "recommend") ∧
    (∀ (m : Model) (s : ChatState) (msg : String),
      (getResponse (some m) s msg).2.2 = 1) ∧
    (getResponse (some (fun _ => some "I hear you")) initialState
        "What locations do you have?").1 = "I hear you" ∧
    (getResponse (some (fun _ => some "I hear you")) initialState
        "What locations do you have?").2.1.community_info = none := by
  refine ⟨?_, ?_, rfl, rfl⟩
  · intro s
    rw [shouldRecommendCommunity_concat]
    decide
  · intro m s msg
    rw [getResponse_some_snd, appInvoke_snd, chat_some_invokes_once]

/-- C2: if the model invocation raises on a turn, `get_response` returns the
fixed apology, the stored transcript is exactly the prepared transcript plus
one apology assistant turn (never the real reply as well, never neither),
and — `getResponse` being a total function — no exception escapes. -/
theorem model_failure_single_apology_turn (s : ChatState) (msg : String) (m : Model)
    (hfail : m (chatModelInput s msg) = none) :
    (getResponse (some m) s msg).1 = chatApology ∧
    (getResponse (some m) s msg).2.1.messages =
      chatModelInput s msg ++ [Msg.ai chatApology] ∧
    assistantTurnCount (getResponse (some m) s msg).2.1.messages =
      assistantTurnCount s.messages + 1 :=
  getResponse_model_failure s msg m hfail

/-- Witness for C2: a concrete always-raising oracle on a fresh session. -/
theorem model_failure_single_apology_turn_witness :
    (getResponse (some (fun _ => none)) initialState "Hello").1 = chatApology ∧
    (getResponse (some (fun _ => none)) initialState "Hello").2.1.messages =
      chatModelInput initialState "Hello" ++ [Msg.ai chatApology] ∧
    assistantTurnCount (getResponse (some (fun _ => none)) initialState "Hello").2.1.messages =
      assistantTurnCount initialState.messages + 1 :=
  model_failure_single_apology_turn initialState "Hello" (fun _ => none) rfl

/-- C3: the claim fails on the code.  `Chatbot` defines no `reset_history`
method, so the gateway's reset branch (app.py line 202) raises
`AttributeError`; the per-message handler catches it and emits the generic
error reply — not the reset acknowledgement — and the session state is left
unchanged rather than replaced by a fresh one. -/
theorem reset_command_yields_error_reply (model : Option Model) (s : ChatState) :
    handleMessage model s InboundMsg.reset = (resetErrorReply, s) ∧
    resetErrorReply ≠ resetAck :=
  ⟨rfl, by decide⟩

/-- C4: with no credential at construction time, `get_response` returns the
fixed unavailable-service string for every input, performs no model
invocation, and leaves `community_info` (the recommendation field)
untouched. -/
theorem unconfigured_model_fixed_reply (s : ChatState) (msg : String) :
    (getResponse none s msg).1 = unavailableMessage ∧
    (getResponse none s msg).2.2 = 0 ∧
    (getResponse none s msg).2.1.community_info = s.community_info :=
  ⟨rfl, rfl, rfl⟩

/-- C5: in every state reachable by `get_response` calls from a fresh
session, the system instruction turn appears at most once; it can only stand
first in the transcript; the first-interaction flag is true exactly while no
system turn exists; and once false it never returns to true (so it flips
true→false at most once, at the turn that prepends the prompt). -/
theorem system_prompt_once_and_first (model : Option Model) (inputs : List String) :
    systemTurnCount (runSession model inputs).messages ≤ 1 ∧
    ((runSession model inputs).context_first_interaction = true ↔
      systemTurnCount (runSession model inputs).messages = 0) ∧
    (∀ pre m post, (runSession model inputs).messages = pre ++ m :: post →
      isSystemTurn m = true → pre = []) ∧
    (∀ extra, (runSession model inputs).context_first_interaction = false →
      (stepState model (runSession model inputs) extra).context_first_interaction = false) := by
  obtain ⟨h1, h2, h3⟩ :=
    SystemPromptInv_consequences _ (runSession_SystemPromptInv model inputs)
  exact ⟨h1, h2, h3, fun extra h => stepState_flag_monotone model _ extra h⟩

/-- C6: keyword matching is case-insensitive over the fixed six-element set:
appended last user turns "Where is it located?" and "WHERE" route to
`recommend`, "I like the colors" routes to `continue_chat`. -/
theorem keyword_matching_case_insensitive (s : ChatState) :
    shouldRecommendCommunity ⟨s.messages ++ [Msg.human "Where is it located?"], s.next,
      s.context_first_interaction, s.community_info⟩ = "recommend" ∧
    shouldRecommendCommunity ⟨s.messages ++ [Msg.human "WHERE"], s.next,
      s.context_first_interaction, s.community_info⟩ = "recommend" ∧
    shouldRecommendCommunity ⟨s.messages ++ [Msg.human "I like the colors"], s.next,
      s.context_first_interaction, s.community_info⟩ = "continue_chat" ∧
    community_keywords =
      ["community", "communities", "place", "facility", "location", "where"] := by
  refine ⟨?_, ?_, ?_, rfl⟩ <;> rw [shouldRecommendCommunity_concat] <;> decide

/-- C7 counterexample: a state whose last turn is an assistant turn — not a
user turn — routes to `recommend`, where the claim says every such state
routes to CONTINUE. -/
theorem assistant_keyword_turn_routes_recommend :
    shouldRecommendCommunity
      ⟨[Msg.ai "Our community has a pool"], none, false, none⟩ = "recommend" := by
  decide

/-- C7 amended: the router is total (always one of the two labels, never an
error); an empty transcript, or a last turn with no extractable text (a
system turn, a bare empty list, a list not headed by a user/assistant turn)
or with empty text, routes to `continue_chat`.  But extractable text covers
assistant turns as well as user turns, so a last assistant turn containing a
keyword routes to `recommend` (see the counterexample). -/
theorem router_total_default_continue (s : ChatState) :
    (shouldRecommendCommunity s = "recommend" ∨
      shouldRecommendCommunity s = "continue_chat") ∧
    (s.messages = [] → shouldRecommendCommunity s = "continue_chat") ∧
    (∀ m, s.messages.getLast? = some m → extractMessageContent m = "" →
      shouldRecommendCommunity s = "continue_chat") := by
  refine ⟨?_, ?_, ?_⟩
  · unfold shouldRecommendCommunity
    rcases s.messages.getLast? with _ | m
    · exact Or.inr rfl
    · dsimp only
      split_ifs <;> simp
  · intro hempty
    unfold shouldRecommendCommunity
    rw [hempty]
    rfl
  · intro m hm he
    unfold shouldRecommendCommunity
    rw [hm]
    simp [he]

/-- C8: the router is a pure function of the transcript tail: states with the
same last transcript element get the same branch, and in particular two
evaluations on one state agree; being a plain function of the state, the
evaluation cannot change the state. -/
theorem router_pure_deterministic (s t : ChatState)
    (h : s.messages.getLast? = t.messages.getLast?) :
    shouldRecommendCommunity s = shouldRecommendCommunity t := by
  unfold shouldRecommendCommunity
  rw [h]

/-- Witness for C8: two states sharing the same last turn. -/
theorem router_pure_deterministic_witness :
    shouldRecommendCommunity ⟨[Msg.human "hi", Msg.human "WHERE"], none, true, none⟩ =
      shouldRecommendCommunity ⟨[Msg.human "WHERE"], none, false, none⟩ :=
  router_pure_deterministic
    ⟨[Msg.human "hi", Msg.human "WHERE"], none, true, none⟩
    ⟨[Msg.human "WHERE"], none, false, none⟩ (by decide)

/-- C9: keyword detection is substring containment: whenever the lowercased
text of the appended last user turn contains any keyword as a contiguous
substring — also inside a longer word — the router returns `recommend`. -/
theorem keyword_substring_routes_recommend (s : ChatState) (text : String)
    (h : community_keywords.any
      (fun keyword => strContains (pyLower text) keyword) = true) :
    shouldRecommendCommunity ⟨s.messages ++ [Msg.human text], s.next,
      s.context_first_interaction, s.community_info⟩ = "recommend" := by
  have htext : text ≠ "" := by
    intro he
    subst he
    revert h
    decide
  rw [shouldRecommendCommunity_concat]
  unfold shouldRecommendCommunity
  simp [Msg.human, extractMessageContent, htext, h]

/-- Witness for C9: "anywhere" contains "where" and "my workplace" contains
"place", both only as parts of longer words. -/
theorem keyword_substring_routes_recommend_witness :
    shouldRecommendCommunity ⟨initialState.messages ++ [Msg.human "anywhere"],
      initialState.next, initialState.context_first_interaction,
      initialState.community_info⟩ = "recommend" ∧
    shouldRecommendCommunity ⟨initialState.messages ++ [Msg.human "my workplace"],
      initialState.next, initialState.context_first_interaction,
      initialState.community_info⟩ = "recommend" :=
  ⟨keyword_substring_routes_recommend initialState "anywhere" (by decide),
   keyword_substring_routes_recommend initialState "my workplace" (by decide)⟩

/-- C10: with no credential at construction time, `get_response` returns
before touching the state, so the entire `ConversationState` — transcript,
flag and recommendation payload, not even the user turn — is unchanged. -/
theorem unconfigured_model_leaves_state_unchanged (s : ChatState) (msg : String) :
    (getResponse none s msg).2.1 = s := rfl

end Sherpa
